import Mathlib

/-
Verification of the ROSCO_toolbox exchange-adapter module
(ROSCO_toolbox/control_interface.py) against its specification.

The module is a marshaling layer around a foreign wind-turbine controller
routine (the DISCON entry point).  Its state is a 500-slot numeric exchange
buffer (avrSWAP), a few scalar attributes, and an abstract handle to the
foreign routine.  We embed it shallowly:

* Python floats are modelled as exact rationals.  A decimal literal of the
  source denotes its decimal value; the constant np.pi denotes the exact
  value of the IEEE-754 double that the running program holds for it
  (pi64 below), since the mathematical pi is not a machine value.
* The one numerically relevant conversion the adapter itself performs is
  the narrowing of the buffer to 32-bit floats: astype(np.float32) inside
  call_discon, and element assignment into the resulting float32 array
  inside call_controller.  That conversion is modelled exactly by toF32,
  IEEE-754 binary32 rounding to nearest, ties to even (overflow to
  infinity is outside the range of every value considered here).
* The foreign routine is an abstract stepper over an abstract internal state
  type: it receives the marshaled buffer and produces a new buffer, a
  status flag (aviFAIL, written through a pointer into the adapter) and a
  message string (avcMSG).  Physically it mutates a fixed array in place,
  so hypotheses of the form "the foreign routine preserves slot i" or
  "preserves the length" express the foreign side of the contract.
* The turbine_state argument of call_controller is a Python dict; a
  missing key raises KeyError at its lookup.  We model the record with
  optional fields and an error-carrying result, so the buffer contents at
  the moment of the error are preserved in the model exactly as the
  mutated self.avrSWAP is preserved in the running program.
-/

namespace ROSCO

/-- qpow2 e is the rational 2 ^ e for an integer e. -/
def qpow2 (e : ℤ) : ℚ :=
  if 0 ≤ e then ((2 ^ e.toNat : ℕ) : ℚ) else ((2 ^ (-e).toNat : ℕ) : ℚ)⁻¹

/-- ratFloor q is the floor of a rational, computed as the flooring
division of its numerator by its (positive) denominator. -/
def ratFloor (q : ℚ) : ℤ := Int.fdiv q.num (q.den : ℤ)

/-- rnEven rounds a rational to the nearest integer, ties to even. -/
def rnEven (q : ℚ) : ℤ :=
  let f := ratFloor q
  let r := q - (f : ℚ)
  if r < 1/2 then f
  else if 1/2 < r then f + 1
  else if f % 2 = 0 then f else f + 1

/-- floorLog2Up climbs from exponent e while 2 ^ (e+1) still fits under a. -/
def floorLog2Up : ℕ → ℤ → ℚ → ℤ
  | 0, e, _ => e
  | fuel + 1, e, a => if qpow2 (e + 1) ≤ a then floorLog2Up fuel (e + 1) a else e

/-- floorLog2Down descends from exponent e while a is still below 2 ^ e. -/
def floorLog2Down : ℕ → ℤ → ℚ → ℤ
  | 0, e, _ => e
  | fuel + 1, e, a => if a < qpow2 e then floorLog2Down fuel (e - 1) a else e

/-- floorLog2 a is the integer e with 2 ^ e ≤ a < 2 ^ (e+1), for positive a
in the binary exponent range of IEEE-754 doubles (fuel 1100 covers it). -/
def floorLog2 (a : ℚ) : ℤ :=
  if 1 ≤ a then floorLog2Up 1100 0 a else floorLog2Down 1100 0 a

/-- toF32 is IEEE-754 binary32 rounding (round to nearest, ties to even),
the conversion applied by astype(np.float32) and by element assignment
into a float32 ndarray.  Subnormal results are handled by clamping the
exponent at -126; overflow to infinity is not modelled (no value in this
development comes near 2 ^ 128). -/
def toF32 (q : ℚ) : ℚ :=
  if q = 0 then 0
  else
    let a := if q < 0 then -q else q
    let e := max (floorLog2 a) (-126)
    let scale := qpow2 (e - 23)
    let m := rnEven (a / scale)
    (if q < 0 then -(1 : ℚ) else 1) * ((m : ℚ) * scale)

/-- pi64 is the exact value of the IEEE-754 double np.pi. -/
def pi64 : ℚ := 884279719003555 / 281474976710656

/-- deg2rad models the module constant np.deg2rad(1). -/
def deg2rad : ℚ := pi64 / 180

/-- rad2deg models the module constant np.rad2deg(1). -/
def rad2deg : ℚ := 180 / pi64

/-- rpm2RadSec models the module constant 2.0 * np.pi / 60.0. -/
def rpm2RadSec : ℚ := 2 * pi64 / 60

/-- DT is the fixed temporary parameter self.DT = 0.1 of the constructor. -/
def DT : ℚ := 1 / 10

/-- num_blade is the fixed parameter self.num_blade = 3. -/
def num_blade : ℚ := 3

/-- char_buffer is the fixed parameter self.char_buffer = 500. -/
def char_buffer : ℚ := 500

/-- avr_size is the fixed parameter self.avr_size = 500, the length of the
exchange buffer allocated by np.zeros. -/
def avr_size : ℕ := 500

/-- bget b i reads buffer slot i (self.avrSWAP[i]); reading a float32
element widens it exactly, so no conversion appears here. -/
def bget (b : List ℚ) (i : ℕ) : ℚ := b.getD i 0

/-- DisconOut packages everything one foreign invocation produces: the new
internal controller state, the mutated exchange buffer, the status flag
written through byref(self.aviFAIL), and the message written into
self.avcMSG. -/
structure DisconOut (σ : Type) where
  fstate : σ
  avrSWAP : List ℚ
  aviFAIL : ℤ
  avcMSG : String

/-- Foreign is the loaded dynamic library: a deterministic stepper from
its abstract internal state and the marshaled buffer to a DisconOut. -/
structure Foreign (σ : Type) where
  step : σ → List ℚ → DisconOut σ

/-- ControllerInterface is the adapter instance: the attributes of the
Python object that the claims mention.  nac_yawrate is optional because
the source only creates that attribute inside call_controller. -/
structure ControllerInterface (σ : Type) where
  param_name : String
  avrSWAP : List ℚ
  pitch : ℚ
  torque : ℚ
  nac_yawrate : Option ℚ
  aviFAIL : ℤ
  avcMSG : String
  fstate : σ

variable {σ : Type}

/-- call_discon converts the persistent buffer to 32-bit floats
(data = self.avrSWAP.astype(np.float32)), hands it to the foreign routine
together with the status-flag pointer and the message buffer, and copies
the mutated array back (self.avrSWAP = data). -/
def call_discon (Fg : Foreign σ) (s : ControllerInterface σ) : ControllerInterface σ :=
  let data := s.avrSWAP.map toF32
  let out := Fg.step s.fstate data
  { s with fstate := out.fstate, avrSWAP := out.avrSWAP,
           aviFAIL := out.aviFAIL, avcMSG := out.avcMSG }

/-- init_avrSWAP is the exchange buffer as the constructor assembles it,
immediately before the construction-time foreign invocation: np.zeros(500)
followed by the twelve slot assignments of the source, in source order. -/
def init_avrSWAP (param_filename : String)
    (gearbox wind_speed_init rotor_rpm_init yaw_init yaw_error_init : ℚ) : List ℚ :=
  ((((((((((((List.replicate avr_size (0 : ℚ)).set 2 DT).set 60 num_blade).set 19
    (rotor_rpm_init * rpm2RadSec * gearbox)).set 20
    (rotor_rpm_init * rpm2RadSec)).set 23 yaw_error_init).set 26
    wind_speed_init).set 36 (yaw_init * deg2rad)).set 0 0).set 48
    char_buffer).set 49 ((param_filename.length : ℚ))).set 50 char_buffer).set 51 char_buffer

/-- init_state0 is the adapter state just before the constructor runs its
foreign invocation: buffer assembled, pitch and torque zeroed, aviFAIL a
fresh c_int32 (zero), message buffer empty, nac_yawrate not yet created. -/
def init_state0 (fs0 : σ) (param_filename : String)
    (gearbox wind_speed_init rotor_rpm_init yaw_init yaw_error_init : ℚ) :
    ControllerInterface σ :=
  { param_name := param_filename
    avrSWAP := init_avrSWAP param_filename gearbox wind_speed_init rotor_rpm_init
      yaw_init yaw_error_init
    pitch := 0
    torque := 0
    nac_yawrate := none
    aviFAIL := 0
    avcMSG := ""
    fstate := fs0 }

/-- init models ControllerInterface.__init__: assemble the buffer with the
call-phase marker at 0, run one foreign invocation, then set the marker to
1 (an assignment into the now float32-typed array, hence toF32). -/
def init (Fg : Foreign σ) (fs0 : σ) (param_filename : String)
    (gearbox wind_speed_init rotor_rpm_init yaw_init yaw_error_init : ℚ) :
    ControllerInterface σ :=
  let s0 := init_state0 fs0 param_filename gearbox wind_speed_init rotor_rpm_init
    yaw_init yaw_error_init
  let s1 := call_discon Fg s0
  { s1 with avrSWAP := s1.avrSWAP.set 0 (toF32 1) }

/-- TurbineState is the turbine_state dict of call_controller; a field
holds none exactly when the corresponding key is absent from the dict. -/
structure TurbineState where
  t : Option ℚ
  dt : Option ℚ
  bld_pitch : Option ℚ
  gen_speed : Option ℚ
  gen_torque : Option ℚ
  gen_eff : Option ℚ
  rot_speed : Option ℚ
  ws : Option ℚ
  Yaw_fromNorth : Option ℚ
  Y_MeasErr : Option ℚ

/-- mkTS builds a turbine_state dict carrying all ten keys. -/
def mkTS (tv dtv bpv gsv gtv gev rsv wsv yfv ymv : ℚ) : TurbineState :=
  ⟨some tv, some dtv, some bpv, some gsv, some gtv, some gev, some rsv,
   some wsv, some yfv, some ymv⟩

/-- valid means every one of the ten keys is present. -/
def TurbineState.valid (ts : TurbineState) : Bool :=
  ts.t.isSome && ts.dt.isSome && ts.bld_pitch.isSome && ts.gen_speed.isSome &&
  ts.gen_torque.isSome && ts.gen_eff.isSome && ts.rot_speed.isSome &&
  ts.ws.isSome && ts.Yaw_fromNorth.isSome && ts.Y_MeasErr.isSome

/-- WriteResult is the outcome of the input-marshaling phase of
call_controller: ok with the updated adapter, or the KeyError raised at
the first absent dict key, carrying the adapter as mutated so far. -/
inductive WriteResult (σ : Type) where
  | ok (s : ControllerInterface σ)
  | keyError (s : ControllerInterface σ)

/-- state projects the adapter out of either outcome (the Python object
persists whether or not the call raised). -/
def WriteResult.state : WriteResult σ → ControllerInterface σ
  | .ok s => s
  | .keyError s => s

/-- isOk discriminates the outcome of the write phase. -/
def WriteResult.isOk : WriteResult σ → Bool
  | .ok _ => true
  | .keyError _ => false

/-- wset is one element assignment self.avrSWAP[i] = v into the
float32-typed buffer, which narrows the stored value to 32 bits. -/
def wset (s : ControllerInterface σ) (i : ℕ) (v : ℚ) : ControllerInterface σ :=
  { s with avrSWAP := s.avrSWAP.set i (toF32 v) }

/-- write_inputs is the first phase of call_controller, lines 143 to 154
of the source, with dict lookups and assignments in source order; slot 14
looks up gen_speed, gen_torque and gen_eff left to right before writing. -/
def write_inputs (s : ControllerInterface σ) (ts : TurbineState) : WriteResult σ :=
  match ts.t with
  | none => .keyError s
  | some tv =>
  let a1 := wset s 1 tv
  match ts.dt with
  | none => .keyError a1
  | some dtv =>
  let a2 := wset a1 2 dtv
  match ts.bld_pitch with
  | none => .keyError a2
  | some bpv =>
  let a3 := wset a2 3 bpv
  let a4 := wset a3 32 bpv
  let a5 := wset a4 33 bpv
  match ts.gen_speed with
  | none => .keyError a5
  | some gsv =>
  match ts.gen_torque with
  | none => .keyError a5
  | some gtv =>
  match ts.gen_eff with
  | none => .keyError a5
  | some gev =>
  let a6 := wset a5 14 (gsv * gtv * gev)
  let a7 := wset a6 22 gtv
  let a8 := wset a7 19 gsv
  match ts.rot_speed with
  | none => .keyError a8
  | some rsv =>
  let a9 := wset a8 20 rsv
  match ts.ws with
  | none => .keyError a9
  | some wsv =>
  let a10 := wset a9 26 wsv
  match ts.Yaw_fromNorth with
  | none => .keyError a10
  | some yfv =>
  let a11 := wset a10 36 yfv
  match ts.Y_MeasErr with
  | none => .keyError a11
  | some ymv =>
  .ok (wset a11 23 ymv)

/-- AdvanceResult is the outcome of call_controller: ok carries the
post-call adapter and the returned triple (torque, pitch, yaw rate) in
return order, keyError carries the adapter as mutated up to the raise. -/
inductive AdvanceResult (σ : Type) where
  | ok (s : ControllerInterface σ) (torque pitch nac_yawrate : ℚ)
  | keyError (s : ControllerInterface σ)

/-- post projects the adapter out of an advance outcome. -/
def AdvanceResult.post : AdvanceResult σ → ControllerInterface σ
  | .ok s _ _ _ => s
  | .keyError s => s

/-- isOk discriminates the outcome of an advance. -/
def AdvanceResult.isOk : AdvanceResult σ → Bool
  | .ok _ _ _ _ => true
  | .keyError _ => false

/-- returned is the value tuple handed back to the driver (zeros stand in
for the no-return of a raised call). -/
def AdvanceResult.returned : AdvanceResult σ → ℚ × ℚ × ℚ
  | .ok _ tq p ny => (tq, p, ny)
  | .keyError _ => (0, 0, 0)

/-- call_controller models ControllerInterface.call_controller: marshal
the turbine state into the buffer, invoke the foreign routine, read the
commanded pitch from slot 41, torque from slot 46 and nacelle yaw rate
from slot 47, store them on the adapter and return them. -/
def call_controller (Fg : Foreign σ) (s : ControllerInterface σ) (ts : TurbineState) :
    AdvanceResult σ :=
  match write_inputs s ts with
  | .keyError s1 => .keyError s1
  | .ok s1 =>
    let s2 := call_discon Fg s1
    let p := bget s2.avrSWAP 41
    let tq := bget s2.avrSWAP 46
    let ny := bget s2.avrSWAP 47
    .ok { s2 with pitch := p, torque := tq, nac_yawrate := some ny } tq p ny

/-- run folds a sequence of advance calls over an adapter, following the
driver loop; the adapter persists across raised calls as well. -/
def run (Fg : Foreign σ) : ControllerInterface σ → List TurbineState → ControllerInterface σ
  | s, [] => s
  | s, ts :: rest => run Fg ((call_controller Fg s ts).post) rest

/-- Fid is a stub foreign routine that touches nothing: it returns the
buffer unchanged, status 0 and an empty message. -/
def Fid : Foreign Unit := ⟨fun fs b => ⟨fs, b, 0, ""⟩⟩


/-- F1 is a stub foreign routine that writes the fixed constants 0.1,
1000.0 and 0.01 into output slots 41, 46 and 47 on every call. -/
def F1 : Foreign Unit :=
  ⟨fun fs b => ⟨fs, ((b.set 41 (1 / 10)).set 46 1000).set 47 (1 / 100), 0, ""⟩⟩

/-- F4 is a stub foreign routine that reports failure: it sets the status
flag to -1 and writes ERROR into the message buffer. -/
def F4 : Foreign Unit := ⟨fun fs b => ⟨fs, b, -1, ("ERROR")⟩⟩

/-- baseState is a concrete adapter whose buffer is 500 zeroed slots. -/
def baseState : ControllerInterface Unit :=
  { param_name := ("DISCON.IN")
    avrSWAP := List.replicate 500 0
    pitch := 0
    torque := 0
    nac_yawrate := none
    aviFAIL := 0
    avcMSG := ""
    fstate := () }

/-- missTS is a turbine_state dict whose gen_torque key is absent while
t, dt, bld_pitch and gen_speed are present. -/
def missTS : TurbineState :=
  ⟨some 1, some (1 / 2), some (1 / 4), some 5, none, some 1, some 1, some 10,
   some 0, some 0⟩

/-- preState is the constructor state just before the construction-time
foreign invocation, for gearbox ratio 1, wind 10, rotor rpm 1, yaw 0 and
yaw error 0. -/
def preState : ControllerInterface Unit := init_state0 () ("DISCON.IN") 1 10 1 0 0

theorem toF32_zero : toF32 0 = 0 := by simp [toF32]

theorem bget_set_self (b : List ℚ) (i : ℕ) (v : ℚ) (h : i < b.length) :
    bget (b.set i v) i = v := by
  simp [bget, List.getD_eq_getElem?_getD, List.getElem?_set_self h]

theorem bget_set_ne (b : List ℚ) {i j : ℕ} (v : ℚ) (h : j ≠ i) :
    bget (b.set i v) j = bget b j := by
  simp [bget, List.getD_eq_getElem?_getD, List.getElem?_set_ne (Ne.symm h)]

theorem bget_map_toF32 (b : List ℚ) (i : ℕ) :
    bget (b.map toF32) i = toF32 (bget b i) := by
  simp only [bget, List.getD_eq_getElem?_getD, List.getElem?_map]
  cases h : b[i]? with
  | none => simp [toF32_zero]
  | some v => simp

theorem bget_replicate (n i : ℕ) : bget (List.replicate n (0 : ℚ)) i = 0 := by
  simp only [bget, List.getD_eq_getElem?_getD, List.getElem?_replicate]
  split <;> simp

attribute [local semireducible] Rat.mul Rat.inv Rat.add Rat.sub in
theorem toF32_one : toF32 1 = 1 := by decide

theorem call_discon_avrSWAP (Fg : Foreign σ) (s : ControllerInterface σ) :
    (call_discon Fg s).avrSWAP = (Fg.step s.fstate (s.avrSWAP.map toF32)).avrSWAP := rfl

theorem call_discon_aviFAIL (Fg : Foreign σ) (s : ControllerInterface σ) :
    (call_discon Fg s).aviFAIL = (Fg.step s.fstate (s.avrSWAP.map toF32)).aviFAIL := rfl

theorem call_discon_avcMSG (Fg : Foreign σ) (s : ControllerInterface σ) :
    (call_discon Fg s).avcMSG = (Fg.step s.fstate (s.avrSWAP.map toF32)).avcMSG := rfl

theorem write_inputs_state_frame (s : ControllerInterface σ) (ts : TurbineState) (i : ℕ)
    (h1 : i ≠ 1) (h2 : i ≠ 2) (h3 : i ≠ 3) (h32 : i ≠ 32) (h33 : i ≠ 33) (h14 : i ≠ 14)
    (h22 : i ≠ 22) (h19 : i ≠ 19) (h20 : i ≠ 20) (h26 : i ≠ 26) (h36 : i ≠ 36)
    (h23 : i ≠ 23) :
    bget (write_inputs s ts).state.avrSWAP i = bget s.avrSWAP i := by
  rcases ts with ⟨ot, odt, obp, ogs, ogt, oge, ors, ows, oyf, oym⟩
  cases ot with
  | none => rfl
  | some tv =>
  cases odt with
  | none => simp [write_inputs, WriteResult.state, wset, bget_set_ne, h1]
  | some dtv =>
  cases obp with
  | none => simp [write_inputs, WriteResult.state, wset, bget_set_ne, h1, h2]
  | some bpv =>
  cases ogs with
  | none => simp [write_inputs, WriteResult.state, wset, bget_set_ne, h1, h2, h3, h32, h33]
  | some gsv =>
  cases ogt with
  | none => simp [write_inputs, WriteResult.state, wset, bget_set_ne, h1, h2, h3, h32, h33]
  | some gtv =>
  cases oge with
  | none => simp [write_inputs, WriteResult.state, wset, bget_set_ne, h1, h2, h3, h32, h33]
  | some gev =>
  cases ors with
  | none =>
    simp [write_inputs, WriteResult.state, wset, bget_set_ne, h1, h2, h3, h32, h33, h14,
      h22, h19]
  | some rsv =>
  cases ows with
  | none =>
    simp [write_inputs, WriteResult.state, wset, bget_set_ne, h1, h2, h3, h32, h33, h14,
      h22, h19, h20]
  | some wsv =>
  cases oyf with
  | none =>
    simp [write_inputs, WriteResult.state, wset, bget_set_ne, h1, h2, h3, h32, h33, h14,
      h22, h19, h20, h26]
  | some yfv =>
  cases oym with
  | none =>
    simp [write_inputs, WriteResult.state, wset, bget_set_ne, h1, h2, h3, h32, h33, h14,
      h22, h19, h20, h26, h36]
  | some ymv =>
    simp [write_inputs, WriteResult.state, wset, bget_set_ne, h1, h2, h3, h32, h33, h14,
      h22, h19, h20, h26, h36, h23]

theorem write_inputs_state_length (s : ControllerInterface σ) (ts : TurbineState) :
    (write_inputs s ts).state.avrSWAP.length = s.avrSWAP.length := by
  rcases ts with ⟨ot, odt, obp, ogs, ogt, oge, ors, ows, oyf, oym⟩
  cases ot with
  | none => rfl
  | some tv =>
  cases odt with
  | none => simp [write_inputs, WriteResult.state, wset]
  | some dtv =>
  cases obp with
  | none => simp [write_inputs, WriteResult.state, wset]
  | some bpv =>
  cases ogs with
  | none => simp [write_inputs, WriteResult.state, wset]
  | some gsv =>
  cases ogt with
  | none => simp [write_inputs, WriteResult.state, wset]
  | some gtv =>
  cases oge with
  | none => simp [write_inputs, WriteResult.state, wset]
  | some gev =>
  cases ors with
  | none => simp [write_inputs, WriteResult.state, wset]
  | some rsv =>
  cases ows with
  | none => simp [write_inputs, WriteResult.state, wset]
  | some wsv =>
  cases oyf with
  | none => simp [write_inputs, WriteResult.state, wset]
  | some yfv =>
  cases oym with
  | none => simp [write_inputs, WriteResult.state, wset]
  | some ymv => simp [write_inputs, WriteResult.state, wset]

set_option maxHeartbeats 2000000 in
theorem write_inputs_state_eq (s : ControllerInterface σ) (ts : TurbineState) :
    (write_inputs s ts).state =
      { s with avrSWAP := (write_inputs s ts).state.avrSWAP } := by
  rcases ts with ⟨ot, odt, obp, ogs, ogt, oge, ors, ows, oyf, oym⟩
  cases ot with
  | none => rfl
  | some tv =>
  cases odt with
  | none => rfl
  | some dtv =>
  cases obp with
  | none => rfl
  | some bpv =>
  cases ogs with
  | none => rfl
  | some gsv =>
  cases ogt with
  | none => rfl
  | some gtv =>
  cases oge with
  | none => rfl
  | some gev =>
  cases ors with
  | none => rfl
  | some rsv =>
  cases ows with
  | none => rfl
  | some wsv =>
  cases oyf with
  | none => rfl
  | some yfv =>
  cases oym with
  | none => rfl
  | some ymv => rfl

theorem write_inputs_mkTS_isOk (s : ControllerInterface σ)
    (tv dtv bpv gsv gtv gev rsv wsv yfv ymv : ℚ) :
    (write_inputs s (mkTS tv dtv bpv gsv gtv gev rsv wsv yfv ymv)).isOk = true := by
  simp [write_inputs, mkTS, WriteResult.isOk]

theorem write_inputs_mkTS_ok (s : ControllerInterface σ)
    (tv dtv bpv gsv gtv gev rsv wsv yfv ymv : ℚ) :
    ∃ W, write_inputs s (mkTS tv dtv bpv gsv gtv gev rsv wsv yfv ymv) = .ok W := by
  cases h : write_inputs s (mkTS tv dtv bpv gsv gtv gev rsv wsv yfv ymv) with
  | ok W => exact ⟨W, rfl⟩
  | keyError W =>
    have hOk := write_inputs_mkTS_isOk s tv dtv bpv gsv gtv gev rsv wsv yfv ymv
    rw [h] at hOk
    simp [WriteResult.isOk] at hOk

set_option maxRecDepth 10000 in
theorem write_inputs_mkTS_slots (s : ControllerInterface σ)
    (tv dtv bpv gsv gtv gev rsv wsv yfv ymv : ℚ) (hlen : s.avrSWAP.length = 500) :
    bget (write_inputs s (mkTS tv dtv bpv gsv gtv gev rsv wsv yfv ymv)).state.avrSWAP 1
        = toF32 tv ∧
    bget (write_inputs s (mkTS tv dtv bpv gsv gtv gev rsv wsv yfv ymv)).state.avrSWAP 2
        = toF32 dtv ∧
    bget (write_inputs s (mkTS tv dtv bpv gsv gtv gev rsv wsv yfv ymv)).state.avrSWAP 3
        = toF32 bpv ∧
    bget (write_inputs s (mkTS tv dtv bpv gsv gtv gev rsv wsv yfv ymv)).state.avrSWAP 32
        = toF32 bpv ∧
    bget (write_inputs s (mkTS tv dtv bpv gsv gtv gev rsv wsv yfv ymv)).state.avrSWAP 33
        = toF32 bpv ∧
    bget (write_inputs s (mkTS tv dtv bpv gsv gtv gev rsv wsv yfv ymv)).state.avrSWAP 14
        = toF32 (gsv * gtv * gev) ∧
    bget (write_inputs s (mkTS tv dtv bpv gsv gtv gev rsv wsv yfv ymv)).state.avrSWAP 22
        = toF32 gtv ∧
    bget (write_inputs s (mkTS tv dtv bpv gsv gtv gev rsv wsv yfv ymv)).state.avrSWAP 19
        = toF32 gsv ∧
    bget (write_inputs s (mkTS tv dtv bpv gsv gtv gev rsv wsv yfv ymv)).state.avrSWAP 20
        = toF32 rsv ∧
    bget (write_inputs s (mkTS tv dtv bpv gsv gtv gev rsv wsv yfv ymv)).state.avrSWAP 26
        = toF32 wsv ∧
    bget (write_inputs s (mkTS tv dtv bpv gsv gtv gev rsv wsv yfv ymv)).state.avrSWAP 36
        = toF32 yfv ∧
    bget (write_inputs s (mkTS tv dtv bpv gsv gtv gev rsv wsv yfv ymv)).state.avrSWAP 23
        = toF32 ymv := by
  refine ⟨?_, ?_, ?_, ?_, ?_, ?_, ?_, ?_, ?_, ?_, ?_, ?_⟩ <;>
    simp [write_inputs, mkTS, WriteResult.state, wset, bget_set_ne, bget_set_self, hlen]

set_option maxRecDepth 10000 in
theorem init_avrSWAP_length (pf : String) (g w r y ye : ℚ) :
    (init_avrSWAP pf g w r y ye).length = 500 := by
  rw [init_avrSWAP]
  simp [avr_size]

set_option maxRecDepth 10000 in
theorem bget_init_avrSWAP_0 (pf : String) (g w r y ye : ℚ) :
    bget (init_avrSWAP pf g w r y ye) 0 = 0 := by
  rw [init_avrSWAP]
  simp [bget, avr_size]

set_option maxRecDepth 10000 in
theorem bget_init_avrSWAP_2 (pf : String) (g w r y ye : ℚ) :
    bget (init_avrSWAP pf g w r y ye) 2 = DT := by
  rw [init_avrSWAP]
  simp [bget, avr_size]

set_option maxRecDepth 10000 in
theorem bget_init_avrSWAP_19 (pf : String) (g w r y ye : ℚ) :
    bget (init_avrSWAP pf g w r y ye) 19 = r * rpm2RadSec * g := by
  rw [init_avrSWAP]
  simp [bget, avr_size]

set_option maxRecDepth 10000 in
theorem bget_init_avrSWAP_20 (pf : String) (g w r y ye : ℚ) :
    bget (init_avrSWAP pf g w r y ye) 20 = r * rpm2RadSec := by
  rw [init_avrSWAP]
  simp [bget, avr_size]

set_option maxRecDepth 10000 in
theorem bget_init_avrSWAP_23 (pf : String) (g w r y ye : ℚ) :
    bget (init_avrSWAP pf g w r y ye) 23 = ye := by
  rw [init_avrSWAP]
  simp [bget, avr_size]

set_option maxRecDepth 10000 in
theorem bget_init_avrSWAP_26 (pf : String) (g w r y ye : ℚ) :
    bget (init_avrSWAP pf g w r y ye) 26 = w := by
  rw [init_avrSWAP]
  simp [bget, avr_size]

set_option maxRecDepth 10000 in
theorem bget_init_avrSWAP_36 (pf : String) (g w r y ye : ℚ) :
    bget (init_avrSWAP pf g w r y ye) 36 = y * deg2rad := by
  rw [init_avrSWAP]
  simp [bget, avr_size]

set_option maxRecDepth 10000 in
theorem bget_init_avrSWAP_48 (pf : String) (g w r y ye : ℚ) :
    bget (init_avrSWAP pf g w r y ye) 48 = char_buffer := by
  rw [init_avrSWAP]
  simp [bget, avr_size]

set_option maxRecDepth 10000 in
theorem bget_init_avrSWAP_49 (pf : String) (g w r y ye : ℚ) :
    bget (init_avrSWAP pf g w r y ye) 49 = (pf.length : ℚ) := by
  rw [init_avrSWAP]
  simp [bget, avr_size]

set_option maxRecDepth 10000 in
theorem bget_init_avrSWAP_50 (pf : String) (g w r y ye : ℚ) :
    bget (init_avrSWAP pf g w r y ye) 50 = char_buffer := by
  rw [init_avrSWAP]
  simp [bget, avr_size]

set_option maxRecDepth 10000 in
theorem bget_init_avrSWAP_51 (pf : String) (g w r y ye : ℚ) :
    bget (init_avrSWAP pf g w r y ye) 51 = char_buffer := by
  rw [init_avrSWAP]
  simp [bget, avr_size]

set_option maxRecDepth 10000 in
theorem bget_init_avrSWAP_60 (pf : String) (g w r y ye : ℚ) :
    bget (init_avrSWAP pf g w r y ye) 60 = num_blade := by
  rw [init_avrSWAP]
  simp [bget, avr_size]

theorem bget_init_avrSWAP_unpopulated (pf : String) (g w r y ye : ℚ) (i : ℕ)
    (e0 : i ≠ 0) (e2 : i ≠ 2) (e19 : i ≠ 19) (e20 : i ≠ 20) (e23 : i ≠ 23)
    (e26 : i ≠ 26) (e36 : i ≠ 36) (e48 : i ≠ 48) (e49 : i ≠ 49) (e50 : i ≠ 50)
    (e51 : i ≠ 51) (e60 : i ≠ 60) :
    bget (init_avrSWAP pf g w r y ye) i = 0 := by
  rw [init_avrSWAP]
  rw [bget_set_ne _ _ e51, bget_set_ne _ _ e50, bget_set_ne _ _ e49,
    bget_set_ne _ _ e48, bget_set_ne _ _ e0, bget_set_ne _ _ e36,
    bget_set_ne _ _ e26, bget_set_ne _ _ e23, bget_set_ne _ _ e20,
    bget_set_ne _ _ e19, bget_set_ne _ _ e60, bget_set_ne _ _ e2]
  exact bget_replicate avr_size i

theorem init_state0_avrSWAP (fs0 : σ) (pf : String) (g w r y ye : ℚ) :
    (init_state0 fs0 pf g w r y ye).avrSWAP = init_avrSWAP pf g w r y ye := rfl

theorem init_eq (Fg : Foreign σ) (fs0 : σ) (pf : String) (g w r y ye : ℚ) :
    init Fg fs0 pf g w r y ye =
      { call_discon Fg (init_state0 fs0 pf g w r y ye) with
        avrSWAP :=
          (call_discon Fg (init_state0 fs0 pf g w r y ye)).avrSWAP.set 0 (toF32 1) } := rfl

theorem init_length (Fg : Foreign σ)
    (Hlen : ∀ fs b, (Fg.step fs b).avrSWAP.length = b.length)
    (fs0 : σ) (pf : String) (g w r y ye : ℚ) :
    (init Fg fs0 pf g w r y ye).avrSWAP.length = 500 := by
  rw [init_eq]
  simp only [List.length_set]
  rw [call_discon_avrSWAP, Hlen, List.length_map, init_state0_avrSWAP]
  exact init_avrSWAP_length pf g w r y ye

theorem init_marker (Fg : Foreign σ)
    (Hlen : ∀ fs b, (Fg.step fs b).avrSWAP.length = b.length)
    (fs0 : σ) (pf : String) (g w r y ye : ℚ) :
    bget (init Fg fs0 pf g w r y ye).avrSWAP 0 = 1 := by
  rw [init_eq]
  have hl : 0 < (call_discon Fg (init_state0 fs0 pf g w r y ye)).avrSWAP.length := by
    rw [call_discon_avrSWAP, Hlen, List.length_map, init_state0_avrSWAP,
      init_avrSWAP_length]
    decide
  rw [bget_set_self _ _ _ hl]
  exact toF32_one

theorem call_controller_post_marker (Fg : Foreign σ)
    (H0 : ∀ fs b, bget (Fg.step fs b).avrSWAP 0 = bget b 0)
    (s : ControllerInterface σ) (ts : TurbineState) (h1 : bget s.avrSWAP 0 = 1) :
    bget (call_controller Fg s ts).post.avrSWAP 0 = 1 := by
  have hf := write_inputs_state_frame s ts 0 (by decide) (by decide) (by decide)
    (by decide) (by decide) (by decide) (by decide) (by decide) (by decide) (by decide)
    (by decide) (by decide)
  cases h : write_inputs s ts with
  | keyError W =>
    rw [h] at hf
    simp only [WriteResult.state] at hf
    simp [call_controller, h, AdvanceResult.post, hf, h1]
  | ok W =>
    rw [h] at hf
    simp only [WriteResult.state] at hf
    simp only [call_controller, h, AdvanceResult.post]
    rw [call_discon_avrSWAP, H0, bget_map_toF32, hf, h1, toF32_one]

theorem call_controller_post_length (Fg : Foreign σ)
    (Hlen : ∀ fs b, (Fg.step fs b).avrSWAP.length = b.length)
    (s : ControllerInterface σ) (ts : TurbineState) (hs : s.avrSWAP.length = 500) :
    (call_controller Fg s ts).post.avrSWAP.length = 500 := by
  have hl := write_inputs_state_length s ts
  cases h : write_inputs s ts with
  | keyError W =>
    rw [h] at hl
    simp only [WriteResult.state] at hl
    simp [call_controller, h, AdvanceResult.post, hl, hs]
  | ok W =>
    rw [h] at hl
    simp only [WriteResult.state] at hl
    simp only [call_controller, h, AdvanceResult.post]
    rw [call_discon_avrSWAP, Hlen, List.length_map, hl, hs]

theorem run_inv (Fg : Foreign σ)
    (Hlen : ∀ fs b, (Fg.step fs b).avrSWAP.length = b.length)
    (H0 : ∀ fs b, bget (Fg.step fs b).avrSWAP 0 = bget b 0) :
    ∀ (l : List TurbineState) (s : ControllerInterface σ),
      bget s.avrSWAP 0 = 1 → s.avrSWAP.length = 500 →
      bget (run Fg s l).avrSWAP 0 = 1 ∧ (run Fg s l).avrSWAP.length = 500 := by
  intro l
  induction l with
  | nil => intro s h1 h2; exact ⟨h1, h2⟩
  | cons ts rest ih =>
    intro s h1 h2
    have hm := call_controller_post_marker Fg H0 s ts h1
    have hlen2 := call_controller_post_length Fg Hlen s ts h2
    show bget (run Fg ((call_controller Fg s ts).post) rest).avrSWAP 0 = 1 ∧
      (run Fg ((call_controller Fg s ts).post) rest).avrSWAP.length = 500
    exact ih ((call_controller Fg s ts).post) hm hlen2

/-- C1: for every fully-populated turbine_state, call_controller succeeds,
reads the commanded pitch from buffer slot 41, the commanded torque from
slot 46 and the nacelle yaw rate from slot 47 of the post-invocation
buffer, stores them as the last-known output attributes, and returns them
in the order (torque, pitch, nacelle yaw rate); if the foreign routine
pins slots 41, 46, 47 at 0.1, 1000.0, 0.01 on every call, the returned
triple is exactly (1000.0, 0.1, 0.01). -/
theorem claim1_advance_reads_fixed_output_slots (Fg : Foreign σ)
    (s : ControllerInterface σ) (tv dtv bpv gsv gtv gev rsv wsv yfv ymv : ℚ)
    (hlen : s.avrSWAP.length = 500) :
    (call_controller Fg s (mkTS tv dtv bpv gsv gtv gev rsv wsv yfv ymv)).isOk = true ∧
    (call_controller Fg s (mkTS tv dtv bpv gsv gtv gev rsv wsv yfv ymv)).post.pitch =
      bget (call_controller Fg s (mkTS tv dtv bpv gsv gtv gev rsv wsv yfv ymv)).post.avrSWAP 41 ∧
    (call_controller Fg s (mkTS tv dtv bpv gsv gtv gev rsv wsv yfv ymv)).post.torque =
      bget (call_controller Fg s (mkTS tv dtv bpv gsv gtv gev rsv wsv yfv ymv)).post.avrSWAP 46 ∧
    (call_controller Fg s (mkTS tv dtv bpv gsv gtv gev rsv wsv yfv ymv)).post.nac_yawrate =
      some (bget (call_controller Fg s (mkTS tv dtv bpv gsv gtv gev rsv wsv yfv ymv)).post.avrSWAP 47) ∧
    (call_controller Fg s (mkTS tv dtv bpv gsv gtv gev rsv wsv yfv ymv)).returned =
      ((call_controller Fg s (mkTS tv dtv bpv gsv gtv gev rsv wsv yfv ymv)).post.torque,
       (call_controller Fg s (mkTS tv dtv bpv gsv gtv gev rsv wsv yfv ymv)).post.pitch,
       bget (call_controller Fg s (mkTS tv dtv bpv gsv gtv gev rsv wsv yfv ymv)).post.avrSWAP 47) ∧
    ((∀ fs b, b.length = 500 →
        bget (Fg.step fs b).avrSWAP 41 = 1 / 10 ∧
        bget (Fg.step fs b).avrSWAP 46 = 1000 ∧
        bget (Fg.step fs b).avrSWAP 47 = 1 / 100) →
      (call_controller Fg s (mkTS tv dtv bpv gsv gtv gev rsv wsv yfv ymv)).returned =
        (1000, 1 / 10, 1 / 100)) := by
  obtain ⟨W, hW⟩ := write_inputs_mkTS_ok s tv dtv bpv gsv gtv gev rsv wsv yfv ymv
  have hWlen : W.avrSWAP.length = 500 := by
    have h := write_inputs_state_length s (mkTS tv dtv bpv gsv gtv gev rsv wsv yfv ymv)
    rw [hW] at h
    simp only [WriteResult.state] at h
    rw [h, hlen]
  refine ⟨?_, ?_, ?_, ?_, ?_, ?_⟩
  · simp [call_controller, hW, AdvanceResult.isOk]
  · simp [call_controller, hW, AdvanceResult.post]
  · simp [call_controller, hW, AdvanceResult.post]
  · simp [call_controller, hW, AdvanceResult.post]
  · simp [call_controller, hW, AdvanceResult.post, AdvanceResult.returned]
  · intro hstub
    have hb : (W.avrSWAP.map toF32).length = 500 := by
      rw [List.length_map, hWlen]
    obtain ⟨e41, e46, e47⟩ := hstub W.fstate (W.avrSWAP.map toF32) hb
    simp only [call_controller, hW, AdvanceResult.returned]
    rw [call_discon_avrSWAP, e41, e46, e47]

/-- C2: for every fully-populated turbine_state, the input-marshaling
phase of call_controller writes exactly the designated slots - time into
slot 1, timestep into slot 2, blade pitch into slots 3, 32 and 33, the
product gen_speed * gen_torque * gen_eff into slot 14, generator torque
into slot 22, generator speed into slot 19, rotor speed into slot 20,
wind speed into slot 26, yaw-from-north into slot 36 and yaw measurement
error into slot 23 (each narrowed to the 32-bit width of the buffer) -
and leaves every other buffer slot unchanged. -/
theorem claim2_advance_writes_exactly_designated_slots (s : ControllerInterface σ)
    (tv dtv bpv gsv gtv gev rsv wsv yfv ymv : ℚ) (hlen : s.avrSWAP.length = 500) :
    (∀ i, i ∉ ([1, 2, 3, 32, 33, 14, 22, 19, 20, 26, 36, 23] : List ℕ) →
      bget (write_inputs s (mkTS tv dtv bpv gsv gtv gev rsv wsv yfv ymv)).state.avrSWAP i
        = bget s.avrSWAP i) ∧
    bget (write_inputs s (mkTS tv dtv bpv gsv gtv gev rsv wsv yfv ymv)).state.avrSWAP 1
      = toF32 tv ∧
    bget (write_inputs s (mkTS tv dtv bpv gsv gtv gev rsv wsv yfv ymv)).state.avrSWAP 2
      = toF32 dtv ∧
    bget (write_inputs s (mkTS tv dtv bpv gsv gtv gev rsv wsv yfv ymv)).state.avrSWAP 3
      = toF32 bpv ∧
    bget (write_inputs s (mkTS tv dtv bpv gsv gtv gev rsv wsv yfv ymv)).state.avrSWAP 32
      = toF32 bpv ∧
    bget (write_inputs s (mkTS tv dtv bpv gsv gtv gev rsv wsv yfv ymv)).state.avrSWAP 33
      = toF32 bpv ∧
    bget (write_inputs s (mkTS tv dtv bpv gsv gtv gev rsv wsv yfv ymv)).state.avrSWAP 14
      = toF32 (gsv * gtv * gev) ∧
    bget (write_inputs s (mkTS tv dtv bpv gsv gtv gev rsv wsv yfv ymv)).state.avrSWAP 22
      = toF32 gtv ∧
    bget (write_inputs s (mkTS tv dtv bpv gsv gtv gev rsv wsv yfv ymv)).state.avrSWAP 19
      = toF32 gsv ∧
    bget (write_inputs s (mkTS tv dtv bpv gsv gtv gev rsv wsv yfv ymv)).state.avrSWAP 20
      = toF32 rsv ∧
    bget (write_inputs s (mkTS tv dtv bpv gsv gtv gev rsv wsv yfv ymv)).state.avrSWAP 26
      = toF32 wsv ∧
    bget (write_inputs s (mkTS tv dtv bpv gsv gtv gev rsv wsv yfv ymv)).state.avrSWAP 36
      = toF32 yfv ∧
    bget (write_inputs s (mkTS tv dtv bpv gsv gtv gev rsv wsv yfv ymv)).state.avrSWAP 23
      = toF32 ymv := by
  refine ⟨?_, write_inputs_mkTS_slots s tv dtv bpv gsv gtv gev rsv wsv yfv ymv hlen⟩
  intro i hi
  simp only [List.mem_cons, List.not_mem_nil, or_false, not_or] at hi
  obtain ⟨n1, n2, n3, n32, n33, n14, n22, n19, n20, n26, n36, n23⟩ := hi
  exact write_inputs_state_frame s _ i n1 n2 n3 n32 n33 n14 n22 n19 n20 n26 n36 n23

/-- C3: assuming the foreign routine never writes slot 0 (and, being an
in-place array mutation, preserves the buffer length), the call-phase
marker handed to the foreign routine during the construction-time
invocation is 0, while after construction and after any sequence of
advance calls the stored marker is 1, and the marker handed to the
foreign routine during every advance invocation is 1: over the lifetime
of the adapter the marker is monotone non-decreasing and switches from 0
to 1 exactly once, at the end of construction. -/
theorem claim3_phase_marker_monotone (Fg : Foreign σ) (fs0 : σ) (pf : String)
    (g w r y ye : ℚ)
    (Hlen : ∀ fs b, (Fg.step fs b).avrSWAP.length = b.length)
    (H0 : ∀ fs b, bget (Fg.step fs b).avrSWAP 0 = bget b 0) :
    bget ((init_avrSWAP pf g w r y ye).map toF32) 0 = 0 ∧
    ∀ l : List TurbineState,
      bget (run Fg (init Fg fs0 pf g w r y ye) l).avrSWAP 0 = 1 ∧
      ∀ ts W, write_inputs (run Fg (init Fg fs0 pf g w r y ye) l) ts = .ok W →
        bget (W.avrSWAP.map toF32) 0 = 1 := by
  constructor
  · rw [bget_map_toF32, bget_init_avrSWAP_0, toF32_zero]
  · intro l
    have hrun := run_inv Fg Hlen H0 l (init Fg fs0 pf g w r y ye)
      (init_marker Fg Hlen fs0 pf g w r y ye) (init_length Fg Hlen fs0 pf g w r y ye)
    refine ⟨hrun.1, ?_⟩
    intro ts W hW
    have hf := write_inputs_state_frame (run Fg (init Fg fs0 pf g w r y ye) l) ts 0
      (by decide) (by decide) (by decide) (by decide) (by decide) (by decide) (by decide)
      (by decide) (by decide) (by decide) (by decide) (by decide)
    rw [hW] at hf
    simp only [WriteResult.state] at hf
    rw [bget_map_toF32, hf, hrun.1, toF32_one]

/-- C4: call_controller does not intercept a foreign failure: after a
successful advance the status flag and the message produced by the
foreign routine at that invocation are stored in the adapter attributes
aviFAIL and avcMSG, where the driver can observe them - in particular a
stub that sets the flag to -1 and the message to ERROR leaves exactly
those values on the adapter after the call. -/
theorem claim4_failure_flag_and_message_surfaced (Fg : Foreign σ)
    (s : ControllerInterface σ) (tv dtv bpv gsv gtv gev rsv wsv yfv ymv : ℚ) :
    (call_controller Fg s (mkTS tv dtv bpv gsv gtv gev rsv wsv yfv ymv)).isOk = true ∧
    (call_controller Fg s (mkTS tv dtv bpv gsv gtv gev rsv wsv yfv ymv)).post.aviFAIL =
      (Fg.step s.fstate
        ((write_inputs s (mkTS tv dtv bpv gsv gtv gev rsv wsv yfv ymv)).state.avrSWAP.map
          toF32)).aviFAIL ∧
    (call_controller Fg s (mkTS tv dtv bpv gsv gtv gev rsv wsv yfv ymv)).post.avcMSG =
      (Fg.step s.fstate
        ((write_inputs s (mkTS tv dtv bpv gsv gtv gev rsv wsv yfv ymv)).state.avrSWAP.map
          toF32)).avcMSG := by
  obtain ⟨W, hW⟩ := write_inputs_mkTS_ok s tv dtv bpv gsv gtv gev rsv wsv yfv ymv
  have hst := write_inputs_state_eq s (mkTS tv dtv bpv gsv gtv gev rsv wsv yfv ymv)
  rw [hW] at hst
  simp only [WriteResult.state] at hst
  have hfst : W.fstate = s.fstate := by rw [hst]
  refine ⟨?_, ?_, ?_⟩
  · simp [call_controller, hW, AdvanceResult.isOk]
  · simp only [call_controller, hW, AdvanceResult.post, WriteResult.state]
    rw [call_discon_aviFAIL, hfst]
  · simp only [call_controller, hW, AdvanceResult.post, WriteResult.state]
    rw [call_discon_avcMSG, hfst]

attribute [local semireducible] Rat.mul Rat.inv Rat.add Rat.sub in
set_option maxRecDepth 10000 in
/-- C5 counterexample: on a turbine_state whose gen_torque key is absent
(but whose t, dt and bld_pitch keys are present), advance raises after
writing a proper subset of the input slots: slot 3 has been updated to
the supplied blade pitch while slot 19 (designated for the present
gen_speed value 5) and slot 22 still hold their old values - so the
claimed all-or-none guarantee fails for records with a missing field. -/
theorem claim5_counterexample :
    (call_controller Fid baseState missTS).isOk = false ∧
    bget (call_controller Fid baseState missTS).post.avrSWAP 3 = 1 / 4 ∧
    bget baseState.avrSWAP 3 = 0 ∧
    bget (call_controller Fid baseState missTS).post.avrSWAP 19 = 0 ∧
    bget (call_controller Fid baseState missTS).post.avrSWAP 22 = 0 := by decide

/-- C5 amended: the all-or-none write guarantee holds exactly for valid
records: for a turbine_state with all ten fields present the write phase
completes and the foreign routine is invoked only afterwards, while for a
turbine_state with a missing field advance terminates with a key error
before any foreign invocation (the outcome does not depend on the foreign
routine, whose flag and message channels are untouched), but the slots
written before the missing key keep their new values. -/
theorem claim5_all_or_error_amended (Fg Fg2 : Foreign σ)
    (s : ControllerInterface σ) (ts : TurbineState) :
    (ts.valid = true →
      (write_inputs s ts).isOk = true ∧ (call_controller Fg s ts).isOk = true) ∧
    (ts.valid = false →
      (call_controller Fg s ts).isOk = false ∧
      call_controller Fg s ts = call_controller Fg2 s ts ∧
      (call_controller Fg s ts).post.aviFAIL = s.aviFAIL ∧
      (call_controller Fg s ts).post.avcMSG = s.avcMSG) := by
  rcases ts with ⟨ot, odt, obp, ogs, ogt, oge, ors, ows, oyf, oym⟩
  cases ot with
  | none =>
    exact ⟨fun hv => by simp [TurbineState.valid] at hv,
      fun hv => by simp [call_controller, write_inputs, AdvanceResult.isOk,
        AdvanceResult.post, wset]⟩
  | some tv =>
  cases odt with
  | none =>
    exact ⟨fun hv => by simp [TurbineState.valid] at hv,
      fun hv => by simp [call_controller, write_inputs, AdvanceResult.isOk,
        AdvanceResult.post, wset]⟩
  | some dtv =>
  cases obp with
  | none =>
    exact ⟨fun hv => by simp [TurbineState.valid] at hv,
      fun hv => by simp [call_controller, write_inputs, AdvanceResult.isOk,
        AdvanceResult.post, wset]⟩
  | some bpv =>
  cases ogs with
  | none =>
    exact ⟨fun hv => by simp [TurbineState.valid] at hv,
      fun hv => by simp [call_controller, write_inputs, AdvanceResult.isOk,
        AdvanceResult.post, wset]⟩
  | some gsv =>
  cases ogt with
  | none =>
    exact ⟨fun hv => by simp [TurbineState.valid] at hv,
      fun hv => by simp [call_controller, write_inputs, AdvanceResult.isOk,
        AdvanceResult.post, wset]⟩
  | some gtv =>
  cases oge with
  | none =>
    exact ⟨fun hv => by simp [TurbineState.valid] at hv,
      fun hv => by simp [call_controller, write_inputs, AdvanceResult.isOk,
        AdvanceResult.post, wset]⟩
  | some gev =>
  cases ors with
  | none =>
    exact ⟨fun hv => by simp [TurbineState.valid] at hv,
      fun hv => by simp [call_controller, write_inputs, AdvanceResult.isOk,
        AdvanceResult.post, wset]⟩
  | some rsv =>
  cases ows with
  | none =>
    exact ⟨fun hv => by simp [TurbineState.valid] at hv,
      fun hv => by simp [call_controller, write_inputs, AdvanceResult.isOk,
        AdvanceResult.post, wset]⟩
  | some wsv =>
  cases oyf with
  | none =>
    exact ⟨fun hv => by simp [TurbineState.valid] at hv,
      fun hv => by simp [call_controller, write_inputs, AdvanceResult.isOk,
        AdvanceResult.post, wset]⟩
  | some yfv =>
  cases oym with
  | none =>
    exact ⟨fun hv => by simp [TurbineState.valid] at hv,
      fun hv => by simp [call_controller, write_inputs, AdvanceResult.isOk,
        AdvanceResult.post, wset]⟩
  | some ymv =>
    constructor
    · intro hv
      constructor
      · exact write_inputs_mkTS_isOk s tv dtv bpv gsv gtv gev rsv wsv yfv ymv
      · obtain ⟨W, hW⟩ := write_inputs_mkTS_ok s tv dtv bpv gsv gtv gev rsv wsv yfv ymv
        show (call_controller Fg s (mkTS tv dtv bpv gsv gtv gev rsv wsv yfv ymv)).isOk
          = true
        simp [call_controller, hW, AdvanceResult.isOk]
    · intro hv
      simp [TurbineState.valid] at hv

attribute [local semireducible] Rat.mul Rat.inv Rat.add Rat.sub in
set_option maxRecDepth 10000 in
/-- C6 counterexample: constructing with rotor_rpm_init 1 and gearbox
ratio 1 over a foreign stub that leaves the buffer untouched, the
generator-side speed slot 19 after construction does not equal
rotor_rpm_init * rpm2RadSec * gearbox: the construction-time invocation
narrowed the 64-bit product to the 32-bit width of the exchange array. -/
theorem claim6_counterexample :
    bget (init Fid () ("DISCON.IN") 1 10 1 0 0).avrSWAP 19 ≠ 1 * rpm2RadSec * 1 := by
  decide

/-- C6 amended: provided the foreign routine leaves slots 19, 20 and 36
unchanged during the construction-time invocation, after construction
slot 19 holds the 32-bit rounding of rotor_rpm_init * (2 pi / 60) *
gearbox_ratio, slot 20 the 32-bit rounding of rotor_rpm_init *
(2 pi / 60), and slot 36 the 32-bit rounding of yaw_init converted from
degrees to radians - the stated products themselves, narrowed by the
astype(float32) marshaling of the construction call. -/
theorem claim6_init_speed_and_yaw_slots_amended (Fg : Foreign σ) (fs0 : σ)
    (pf : String) (g w r y ye : ℚ)
    (H19 : ∀ fs b, bget (Fg.step fs b).avrSWAP 19 = bget b 19)
    (H20 : ∀ fs b, bget (Fg.step fs b).avrSWAP 20 = bget b 20)
    (H36 : ∀ fs b, bget (Fg.step fs b).avrSWAP 36 = bget b 36) :
    bget (init Fg fs0 pf g w r y ye).avrSWAP 19 = toF32 (r * rpm2RadSec * g) ∧
    bget (init Fg fs0 pf g w r y ye).avrSWAP 20 = toF32 (r * rpm2RadSec) ∧
    bget (init Fg fs0 pf g w r y ye).avrSWAP 36 = toF32 (y * deg2rad) := by
  have hproj : (init Fg fs0 pf g w r y ye).avrSWAP =
      (call_discon Fg (init_state0 fs0 pf g w r y ye)).avrSWAP.set 0 (toF32 1) := rfl
  refine ⟨?_, ?_, ?_⟩
  · rw [hproj, bget_set_ne _ _ (by decide), call_discon_avrSWAP, H19, bget_map_toF32,
      init_state0_avrSWAP, bget_init_avrSWAP_19]
  · rw [hproj, bget_set_ne _ _ (by decide), call_discon_avrSWAP, H20, bget_map_toF32,
      init_state0_avrSWAP, bget_init_avrSWAP_20]
  · rw [hproj, bget_set_ne _ _ (by decide), call_discon_avrSWAP, H36, bget_map_toF32,
      init_state0_avrSWAP, bget_init_avrSWAP_36]

attribute [local semireducible] Rat.mul Rat.inv Rat.add Rat.sub in
set_option maxRecDepth 10000 in
/-- C7 counterexample: at the construction-time invocation the buffer
still holds 64-bit values; with a stub foreign routine that touches
nothing, slot 19 (holding rotor_rpm_init * rpm2RadSec for rpm 1 and
gearbox 1) changes across call_discon, because the marshaling narrows it
to 32 bits before the copy-back. -/
theorem claim7_counterexample :
    bget (call_discon Fid preState).avrSWAP 19 ≠ bget preState.avrSWAP 19 := by decide

/-- C7 amended: for every slot that the foreign routine leaves unchanged,
the value after call_discon equals the 32-bit rounding of the value
before; in particular the slot is preserved exactly whenever its prior
value is already representable at the 32-bit width - which holds for
every invocation after the first, the persistent buffer then being the
copied-back float32 array. -/
theorem claim7_roundtrip_amended (Fg : Foreign σ) (s : ControllerInterface σ) (i : ℕ)
    (Hp : ∀ fs b, bget (Fg.step fs b).avrSWAP i = bget b i) :
    bget (call_discon Fg s).avrSWAP i = toF32 (bget s.avrSWAP i) ∧
    (toF32 (bget s.avrSWAP i) = bget s.avrSWAP i →
      bget (call_discon Fg s).avrSWAP i = bget s.avrSWAP i) := by
  have h : bget (call_discon Fg s).avrSWAP i = toF32 (bget s.avrSWAP i) := by
    rw [call_discon_avrSWAP, Hp, bget_map_toF32]
  exact ⟨h, fun hrep => by rw [h, hrep]⟩

/-- C8: the constructor allocates an exchange buffer of exactly 500
fixed-width slots (hence at least 500), zeroed at allocation; slots 48,
50 and 51 each hold the byte-buffer size 500, slot 49 holds the length of
the parameter-file-name string, and every slot not explicitly populated
by the constructor still holds zero both in the stored buffer and in the
marshaled array handed to the first foreign invocation. -/
theorem claim8_buffer_allocation_and_bookkeeping (pf : String) (g w r y ye : ℚ) :
    (init_avrSWAP pf g w r y ye).length = 500 ∧
    bget (init_avrSWAP pf g w r y ye) 48 = 500 ∧
    bget (init_avrSWAP pf g w r y ye) 50 = 500 ∧
    bget (init_avrSWAP pf g w r y ye) 51 = 500 ∧
    bget (init_avrSWAP pf g w r y ye) 49 = (pf.length : ℚ) ∧
    ∀ i, i ∉ ([0, 2, 19, 20, 23, 26, 36, 48, 49, 50, 51, 60] : List ℕ) →
      bget (init_avrSWAP pf g w r y ye) i = 0 ∧
      bget ((init_avrSWAP pf g w r y ye).map toF32) i = 0 := by
  refine ⟨init_avrSWAP_length pf g w r y ye, ?_, ?_, ?_,
    bget_init_avrSWAP_49 pf g w r y ye, ?_⟩
  · rw [bget_init_avrSWAP_48]; rfl
  · rw [bget_init_avrSWAP_50]; rfl
  · rw [bget_init_avrSWAP_51]; rfl
  · intro i hi
    simp only [List.mem_cons, List.not_mem_nil, or_false, not_or] at hi
    obtain ⟨e0, e2, e19, e20, e23, e26, e36, e48, e49, e50, e51, e60⟩ := hi
    have hz := bget_init_avrSWAP_unpopulated pf g w r y ye i e0 e2 e19 e20 e23 e26 e36
      e48 e49 e50 e51 e60
    exact ⟨hz, by rw [bget_map_toF32, hz, toF32_zero]⟩

/-- C9: provided the foreign routine, mutating a fixed array in place,
preserves the buffer length, the exchange buffer has exactly 500 slots
after construction, and both call_discon and call_controller keep a
500-slot buffer at 500 slots - neither the marshaling nor any slot
assignment grows or shrinks it. -/
theorem claim9_buffer_length_invariant (Fg : Foreign σ)
    (Hlen : ∀ fs b, (Fg.step fs b).avrSWAP.length = b.length)
    (fs0 : σ) (pf : String) (g w r y ye : ℚ) :
    (init Fg fs0 pf g w r y ye).avrSWAP.length = 500 ∧
    (∀ s : ControllerInterface σ, s.avrSWAP.length = 500 →
      (call_discon Fg s).avrSWAP.length = 500) ∧
    (∀ (s : ControllerInterface σ) (ts : TurbineState), s.avrSWAP.length = 500 →
      (call_controller Fg s ts).post.avrSWAP.length = 500) := by
  refine ⟨init_length Fg Hlen fs0 pf g w r y ye, ?_, ?_⟩
  · intro s hs
    rw [call_discon_avrSWAP, Hlen, List.length_map, hs]
  · intro s ts hs
    exact call_controller_post_length Fg Hlen s ts hs

/-- C10: the constructor writes the fixed constant 0.1 into the timestep
slot 2 and the fixed constant 3 into the blade-count slot 60, whatever
the constructor arguments and the parameter file supply; on every advance
the timestep slot is then overwritten with the dt field of the supplied
turbine_state. -/
theorem claim10_fixed_timestep_and_blade_count (pf : String) (g w r y ye : ℚ)
    (s : ControllerInterface σ) (tv dtv bpv gsv gtv gev rsv wsv yfv ymv : ℚ)
    (hlen : s.avrSWAP.length = 500) :
    bget (init_avrSWAP pf g w r y ye) 2 = DT ∧ DT = 1 / 10 ∧
    bget (init_avrSWAP pf g w r y ye) 60 = num_blade ∧ num_blade = 3 ∧
    bget (write_inputs s (mkTS tv dtv bpv gsv gtv gev rsv wsv yfv ymv)).state.avrSWAP 2
      = toF32 dtv := by
  exact ⟨bget_init_avrSWAP_2 pf g w r y ye, rfl, bget_init_avrSWAP_60 pf g w r y ye, rfl,
    (write_inputs_mkTS_slots s tv dtv bpv gsv gtv gev rsv wsv yfv ymv hlen).2.1⟩

set_option maxRecDepth 10000 in
theorem claim1_witness :
    (call_controller F1 baseState (mkTS 1 2 3 4 5 6 7 8 9 10)).returned
      = (1000, 1 / 10, 1 / 100) := by
  have hlen : baseState.avrSWAP.length = 500 := by simp [baseState]
  refine (claim1_advance_reads_fixed_output_slots F1 baseState
    1 2 3 4 5 6 7 8 9 10 hlen).2.2.2.2.2 ?_
  intro fs b hb
  refine ⟨?_, ?_, ?_⟩ <;> simp [F1, bget_set_ne, bget_set_self, hb]

set_option maxRecDepth 10000 in
theorem claim2_witness :
    bget (write_inputs baseState (mkTS 1 2 3 4 5 6 7 8 9 10)).state.avrSWAP 1
      = toF32 1 ∧
    bget (write_inputs baseState (mkTS 1 2 3 4 5 6 7 8 9 10)).state.avrSWAP 100
      = bget baseState.avrSWAP 100 := by
  have h := claim2_advance_writes_exactly_designated_slots baseState
    1 2 3 4 5 6 7 8 9 10 (by simp [baseState])
  exact ⟨h.2.1, h.1 100 (by decide)⟩

theorem claim3_witness :
    bget ((init_avrSWAP ("DISCON.IN") 1 10 4 0 0).map toF32) 0 = 0 ∧
    bget (run Fid (init Fid () ("DISCON.IN") 1 10 4 0 0) []).avrSWAP 0 = 1 := by
  have h := claim3_phase_marker_monotone Fid () ("DISCON.IN") 1 10 4 0 0
    (fun _ _ => rfl) (fun _ _ => rfl)
  exact ⟨h.1, (h.2 []).1⟩

theorem claim5_witness :
    (write_inputs baseState (mkTS 1 1 1 1 1 1 1 1 1 1)).isOk = true ∧
    (call_controller Fid baseState missTS).isOk = false := by
  refine ⟨((claim5_all_or_error_amended Fid Fid baseState
      (mkTS 1 1 1 1 1 1 1 1 1 1)).1 (by decide)).1,
    ((claim5_all_or_error_amended Fid Fid baseState missTS).2 (by decide)).1⟩

theorem claim6_witness :
    bget (init Fid () ("DISCON.IN") 1 10 1 0 0).avrSWAP 19
      = toF32 (1 * rpm2RadSec * 1) :=
  (claim6_init_speed_and_yaw_slots_amended Fid () ("DISCON.IN") 1 10 1 0 0
    (fun _ _ => rfl) (fun _ _ => rfl) (fun _ _ => rfl)).1

theorem claim7_witness :
    bget (call_discon Fid baseState).avrSWAP 7 = toF32 (bget baseState.avrSWAP 7) :=
  (claim7_roundtrip_amended Fid baseState 7 (fun _ _ => rfl)).1

theorem claim8_witness :
    bget (init_avrSWAP ("DISCON.IN") 1 10 4 0 0) 100 = 0 ∧
    bget (init_avrSWAP ("DISCON.IN") 1 10 4 0 0) 48 = 500 := by
  have h := claim8_buffer_allocation_and_bookkeeping ("DISCON.IN") 1 10 4 0 0
  exact ⟨(h.2.2.2.2.2 100 (by decide)).1, h.2.1⟩

theorem claim9_witness :
    (init Fid () ("DISCON.IN") 1 10 4 0 0).avrSWAP.length = 500 :=
  (claim9_buffer_length_invariant Fid (fun _ _ => rfl) () ("DISCON.IN") 1 10 4 0 0).1

set_option maxRecDepth 10000 in
theorem claim10_witness :
    bget (write_inputs baseState (mkTS 1 2 3 4 5 6 7 8 9 10)).state.avrSWAP 2
      = toF32 2 :=
  (claim10_fixed_timestep_and_blade_count ("DISCON.IN") 1 10 4 0 0 baseState
    1 2 3 4 5 6 7 8 9 10 (by simp [baseState])).2.2.2.2

end ROSCO
